import Mathlib

/-!
# Verification of `surface_creator.py`

A shallow embedding of the hematite slab-generation script
`surface_creator.py` and proofs about it.

The script is a single function `surface_generator` that
1. loads a fixed orthorhombic Fe2O3 unit cell from a CIF file,
2. translates a rhombohedral Miller index to the orthorhombic setting
   via four fixed membership lists,
3. calls the external `pymatgen` engine (`SlabGenerator` / `get_slabs`)
   to enumerate candidate slabs,
4. computes integer supercell multipliers from the requested width/depth
   and the first slab's in-plane lattice lengths, and
5. writes one scaled structure file per candidate slab.

External collaborators (pymatgen structures and their methods) are modelled
at the granularity the script observes: a slab carries its lattice vectors,
the reported in-plane lattice lengths `lattice.a` / `lattice.b`, and a list
of Cartesian site coordinates.  Real-valued quantities are modelled as
rationals.  The slab-enumeration engine itself is an opaque parameter.
-/

/-- Three-component vectors over ℚ, modelling Cartesian coordinates. -/
abbrev V3 : Type := ℚ × ℚ × ℚ

def addV (u v : V3) : V3 := (u.1 + v.1, u.2.1 + v.2.1, u.2.2 + v.2.2)

def smulV (t : ℚ) (v : V3) : V3 := (t * v.1, t * v.2.1, t * v.2.2)

def dotV (u v : V3) : ℚ := u.1 * v.1 + u.2.1 * v.2.1 + u.2.2 * v.2.2

def crossV (u v : V3) : V3 :=
  (u.2.1 * v.2.2 - u.2.2 * v.2.1,
   u.2.2 * v.1 - u.1 * v.2.2,
   u.1 * v.2.1 - u.2.1 * v.1)

/-- A pymatgen `Lattice` as the script observes it: the three lattice
vectors (rows of `lattice.matrix`) together with the reported lengths
`lattice.a = ‖vecA‖` and `lattice.b = ‖vecB‖`.  The lengths are carried as
rational data (a vector norm is generally irrational, so it cannot be
recomputed inside ℚ); operations below keep them consistent with the
vectors they describe. -/
structure CLattice where
  vecA : V3
  vecB : V3
  vecC : V3
  a : ℚ
  b : ℚ
  deriving DecidableEq

/-- A pymatgen `Structure`/`Slab` as the script observes it: a lattice and
the Cartesian coordinates of its sites. -/
structure Slab where
  lattice : CLattice
  sites : List V3
  deriving DecidableEq

/-- Modelled from pymatgen `Structure.make_supercell([m1, m2, m3])` with a
diagonal scaling matrix, as the spec describes ("a structure formed by
periodic replication of a smaller cell along lattice directions"): each
lattice vector is scaled by its multiplier, the reported lengths scale by
the multiplier's absolute value, and every site is replicated over the
integer translates of the old cell inside the new one. -/
def make_supercell (m : ℤ × ℤ × ℤ) (s : Slab) : Slab :=
  { lattice :=
      { vecA := smulV (m.1 : ℚ) s.lattice.vecA
        vecB := smulV (m.2.1 : ℚ) s.lattice.vecB
        vecC := smulV (m.2.2 : ℚ) s.lattice.vecC
        a := (m.1.natAbs : ℚ) * s.lattice.a
        b := (m.2.1.natAbs : ℚ) * s.lattice.b }
    sites :=
      (List.range m.1.natAbs).flatMap fun i =>
        (List.range m.2.1.natAbs).flatMap fun j =>
          (List.range m.2.2.natAbs).flatMap fun k =>
            s.sites.map fun p =>
              addV p (addV (smulV (i : ℚ) s.lattice.vecA)
                (addV (smulV (j : ℚ) s.lattice.vecB)
                  (smulV (k : ℚ) s.lattice.vecC))) }

/-- Modelled from pymatgen `Slab.get_orthogonal_c_slab`, which the spec
describes as "re-orthogonalize the out-of-plane (surface-normal) lattice
vector": the returned slab replaces the third lattice vector by the
projection of the old one onto the normal of the in-plane vectors
(`((c ⬝ n) / (n ⬝ n)) • n` with `n = a × b`), keeping the in-plane vectors
and the Cartesian site coordinates.  It RETURNS a new slab; it does not
modify its argument. -/
def get_orthogonal_c_slab (s : Slab) : Slab :=
  let n := crossV s.lattice.vecA s.lattice.vecB
  { s with lattice :=
      { s.lattice with
          vecC := smulV (dotV s.lattice.vecC n / dotV n n) n } }

/-- Python `round(q, 0)` on an exact value: round to the nearest
integer, ties to the even integer.  The script's `int(...)` around it is
the identity on an integral float, so the composite is this function. -/
def pyRound (q : ℚ) : ℤ :=
  let n := ⌊q⌋
  if q - n < 1 / 2 then n
  else if 1 / 2 < q - n then n + 1
  else if n % 2 = 0 then n else n + 1

/-- List `plane_100` of the script (line 64): rhombohedral equivalents of
(100). -/
def plane_100 : List (ℤ × ℤ × ℤ) :=
  [(1, 0, 0), (0, 1, 0), (1, -1, 0), (-1, 0, 0), (0, -1, 0), (-1, 1, 0)]

/-- List `plane_001` of the script (line 65): rhombohedral equivalents of
(001). -/
def plane_001 : List (ℤ × ℤ × ℤ) :=
  [(0, 0, 1), (0, 0, -1)]

/-- List `plane_110` of the script (line 66): rhombohedral equivalents of
(110). -/
def plane_110 : List (ℤ × ℤ × ℤ) :=
  [(1, 1, 0), (1, -2, 0), (2, -1, 0), (-1, -1, 0), (-1, 2, 0), (-2, 1, 0)]

/-- List `plane_012` of the script (line 67): rhombohedral equivalents of
(012). -/
def plane_012 : List (ℤ × ℤ × ℤ) :=
  [(0, 1, 2), (1, -1, 2), (-1, -1, 2), (0, -2, -2), (-1, 1, -2), (1, 1, -2)]

/-- The `if/elif` chain of lines 69-76, translating a rhombohedral Miller
index to the orthorhombic setting.  `none` models the Python local `mil`
being left unassigned when the index is in none of the four lists: the
chain itself raises nothing. -/
def translate_miller (m : ℤ × ℤ × ℤ) : Option (ℤ × ℤ × ℤ) :=
  if m ∈ plane_100 then some (1, 1, 0)
  else if m ∈ plane_001 then some (0, 0, 1)
  else if m ∈ plane_110 then some (1, 0, 0)
  else if m ∈ plane_012 then some (0, 2, 2)
  else none

/-- The keyword arguments of the `SlabGenerator` constructor call
(lines 79-85). -/
structure SlabGenArgs where
  initial_structure : Slab
  miller_index : ℤ × ℤ × ℤ
  min_slab_size : ℚ
  min_vacuum_size : ℚ
  center_slab : Bool
  lll_reduce : Bool
  primitive : Bool
  deriving DecidableEq

/-- How `surface_generator` can terminate abnormally.  The first two are
the Python runtime errors the script actually hits; the third is modelled
from the spec: the named failure "no valid slab for requested
configuration" that the spec's error taxonomy demands on an empty engine
result.  The script contains no code producing it. -/
inductive SurfErr where
  | unboundLocal
  | indexError
  | noValidSlab
  deriving DecidableEq

/-- The output path `f'slab_{rhombohedral_miller}_{i}.cif'` of line 96,
with the tuple rendered the way Python renders an int 3-tuple. -/
def mkFilename (m : ℤ × ℤ × ℤ) (i : ℕ) : String :=
  "slab_(" ++ toString m.1 ++ ", " ++ toString m.2.1 ++ ", " ++
    toString m.2.2 ++ ")_" ++ toString i ++ ".cif"

/-- The exact argument list of the `SlabGenerator` constructor call of
lines 79-85: the loaded unit cell, the translated Miller index, minimum
slab size = requested thickness, minimum vacuum size = requested padding,
`center_slab=True`, `lll_reduce=True`, `primitive=False`. -/
def slabgen_args (fe2o3 : Slab) (mil : ℤ × ℤ × ℤ) (thickness padding : ℚ) :
    SlabGenArgs :=
  SlabGenArgs.mk fe2o3 mil thickness padding true true false

/-- The body of `surface_generator(thickness, width, depth,
rhombohedral_miller, padding=1.0)`.

The unit cell `fe2o3` (loaded by `Structure.from_file` from
`Fe2O3_orth.cif`, an external read) and the slab-enumeration engine
`get_slabs` (pymatgen `SlabGenerator(...).get_slabs()`) are opaque
parameters.  The result is the sequence of `(filename, structure)` pairs
written by the final loop, or the Python error the run dies with:
`unboundLocal` when `mil` was never assigned and is read at the
`SlabGenerator` call, `indexError` when `slabs[0]` is taken on an empty
list.  As in the source, `s.get_orthogonal_c_slab()` is called and its
result discarded (the method returns a new slab and does not mutate
`s`).  The Python default `padding=1.0` is made an explicit argument
here. -/
def surface_generator (fe2o3 : Slab) (get_slabs : SlabGenArgs → List Slab)
    (thickness width depth : ℚ) (rhombohedral_miller : ℤ × ℤ × ℤ)
    (padding : ℚ) : Except SurfErr (List (String × Slab)) :=
  match translate_miller rhombohedral_miller with
  | none => .error .unboundLocal
  | some mil =>
    let slabs := get_slabs (slabgen_args fe2o3 mil thickness padding)
    match slabs with
    | [] => .error .indexError
    | s0 :: _ =>
      let mult_a := pyRound (width / s0.lattice.a)
      let mult_b := pyRound (depth / s0.lattice.b)
      .ok ((slabs.zip (List.range slabs.length)).map fun si =>
        let s := make_supercell (mult_a, mult_b, 1) si.1
        let _discarded := get_orthogonal_c_slab s
        (mkFilename rhombohedral_miller si.2, s))

/-- The membership table of `translate_miller` probed with the four
`elif` branches in the reverse order.  Used only to state that the
translation does not depend on the order in which the families are
tested. -/
def translate_miller_rev (m : ℤ × ℤ × ℤ) : Option (ℤ × ℤ × ℤ) :=
  if m ∈ plane_012 then some (0, 2, 2)
  else if m ∈ plane_110 then some (1, 0, 0)
  else if m ∈ plane_001 then some (0, 0, 1)
  else if m ∈ plane_100 then some (1, 1, 0)
  else none

/-- A concrete engine-produced slab with orthogonal lattice vectors of
lengths `la`, `lb`, 1 and no sites, used to evaluate the pipeline on
explicit inputs. -/
def simpleSlab (la lb : ℚ) : Slab :=
  { lattice :=
      { vecA := (la, 0, 0)
        vecB := (0, lb, 0)
        vecC := (0, 0, 1)
        a := la
        b := lb }
    sites := [] }

/-- A concrete engine-produced slab whose out-of-plane lattice vector
(1, 0, 1) is not orthogonal to the in-plane vectors. -/
def tiltSlab : Slab :=
  { lattice :=
      { vecA := (1, 0, 0)
        vecB := (0, 1, 0)
        vecC := (1, 0, 1)
        a := 1
        b := 1 }
    sites := [] }

/-- C1: every Miller index in one of the four equivalence-class lists is
translated to that class's single canonical orthorhombic index:
the (100)-family to (1,1,0), the (001)-family to (0,0,1), the
(110)-family to (1,0,0) and the (012)-family to (0,2,2). -/
theorem c1_families_map_to_canonical :
    (∀ m ∈ plane_100, translate_miller m = some (1, 1, 0)) ∧
    (∀ m ∈ plane_001, translate_miller m = some (0, 0, 1)) ∧
    (∀ m ∈ plane_110, translate_miller m = some (1, 0, 0)) ∧
    (∀ m ∈ plane_012, translate_miller m = some (0, 2, 2)) := by
  decide

/-- Witness for C1 at the concrete member (0,1,0) of the (100)-family. -/
theorem c1_families_map_to_canonical_witness :
    translate_miller (0, 1, 0) = some (1, 1, 0) :=
  c1_families_map_to_canonical.1 (0, 1, 0) (by decide)

/-- C2: on a Miller index outside all four membership lists the
translation chain raises no explicit, named failure and produces no
index (`none` models the Python local `mil` being left unassigned), and
the run then aborts with the generic unbound-local error at the point of
use, not with any named "unsupported Miller index" failure. -/
theorem c2_unsupported_index_left_unset (m : ℤ × ℤ × ℤ)
    (h100 : m ∉ plane_100) (h001 : m ∉ plane_001)
    (h110 : m ∉ plane_110) (h012 : m ∉ plane_012) :
    translate_miller m = none ∧
    ∀ fe eng t w d p,
      surface_generator fe eng t w d m p = .error .unboundLocal := by
  have ht : translate_miller m = none := by
    simp [translate_miller, h100, h001, h110, h012]
  exact ⟨ht, fun fe eng t w d p => by simp [surface_generator, ht]⟩

/-- Witness for C2 at the unsupported index (2,0,0). -/
theorem c2_unsupported_index_left_unset_witness :
    translate_miller (2, 0, 0) = none ∧
    ∀ fe eng t w d p,
      surface_generator fe eng t w d (2, 0, 0) p = .error .unboundLocal :=
  c2_unsupported_index_left_unset (2, 0, 0)
    (by decide) (by decide) (by decide) (by decide)

/-- C9 counterexample: (0,1,2) is accepted by the translator, but its
negation (0,-1,-2) is rejected — the (012)-family list is not closed
under negation (it contains (0,-2,-2) instead of (0,-1,-2)). -/
theorem c9_counterexample_negation_not_closed :
    translate_miller (0, 1, 2) = some (0, 2, 2) ∧
    translate_miller (0, -1, -2) = none := by
  decide

/-- C9 (amended): for every index in the (100)-, (001)- and (110)-family
lists, the negated index is also accepted and translates to the same
canonical orthorhombic index; the (012)-family does not have this
property. -/
theorem c9_negation_closure_three_families :
    ∀ m ∈ plane_100 ++ plane_001 ++ plane_110,
      translate_miller (-m.1, -m.2.1, -m.2.2) = translate_miller m ∧
      (translate_miller m).isSome = true := by
  decide

/-- Witness for the amended C9 at the concrete member (1,0,0). -/
theorem c9_negation_closure_three_families_witness :
    translate_miller (-1, 0, 0) = translate_miller (1, 0, 0) ∧
    (translate_miller (1, 0, 0)).isSome = true := by
  have h := c9_negation_closure_three_families (1, 0, 0) (by decide)
  exact ⟨h.1, h.2⟩

/-- C10: the four family lists are pairwise disjoint, so the translation
is a well-defined lookup: probing the four membership tests in the
reverse order yields the same function. -/
theorem c10_families_disjoint_translation_well_defined :
    (plane_100 ∩ plane_001 = [] ∧ plane_100 ∩ plane_110 = [] ∧
     plane_100 ∩ plane_012 = [] ∧ plane_001 ∩ plane_110 = [] ∧
     plane_001 ∩ plane_012 = [] ∧ plane_110 ∩ plane_012 = []) ∧
    ∀ m, translate_miller_rev m = translate_miller m := by
  refine ⟨by decide, fun m => ?_⟩
  have d12 : ∀ a ∈ plane_100, a ∉ plane_001 := by decide
  have d13 : ∀ a ∈ plane_100, a ∉ plane_110 := by decide
  have d14 : ∀ a ∈ plane_100, a ∉ plane_012 := by decide
  have d23 : ∀ a ∈ plane_001, a ∉ plane_110 := by decide
  have d24 : ∀ a ∈ plane_001, a ∉ plane_012 := by decide
  have d34 : ∀ a ∈ plane_110, a ∉ plane_012 := by decide
  by_cases h1 : m ∈ plane_100
  · simp [translate_miller, translate_miller_rev, h1,
      d12 m h1, d13 m h1, d14 m h1]
  · by_cases h2 : m ∈ plane_001
    · simp [translate_miller, translate_miller_rev, h1, h2,
        d23 m h2, d24 m h2]
    · by_cases h3 : m ∈ plane_110
      · simp [translate_miller, translate_miller_rev, h1, h2, h3, d34 m h3]
      · by_cases h4 : m ∈ plane_012 <;>
          simp [translate_miller, translate_miller_rev, h1, h2, h3, h4]

/-- Element lookup in the script's output loop shape: mapping a function
over a list zipped with the range of its indices. -/
theorem zip_range_map_getElem {α β : Type} (l : List α) (f : α × ℕ → β)
    (i : ℕ) (hi : i < l.length) :
    ((l.zip (List.range l.length)).map f)[i]? = some (f (l.get ⟨i, hi⟩, i)) := by
  have hz : i < (l.zip (List.range l.length)).length := by
    simp [List.length_zip, hi]
  rw [List.getElem?_map, List.getElem?_eq_getElem hz, List.getElem_zip]
  simp [List.getElem_range, List.get_eq_getElem]

/-- Dot product is linear in a scaled first argument. -/
theorem dotV_smulV (t : ℚ) (u v : V3) : dotV (smulV t u) v = t * dotV u v := by
  simp only [dotV, smulV]
  ring

/-- Re-orthogonalizing twice is the same as re-orthogonalizing once: the
modelled `get_orthogonal_c_slab` is idempotent. -/
theorem get_orthogonal_c_slab_idempotent (s : Slab) :
    get_orthogonal_c_slab (get_orthogonal_c_slab s) = get_orthogonal_c_slab s := by
  simp only [get_orthogonal_c_slab, dotV_smulV]
  by_cases h : dotV (crossV s.lattice.vecA s.lattice.vecB)
      (crossV s.lattice.vecA s.lattice.vecB) = 0
  · simp [h]
  · congr 2
    field_simp

/-- Projection of a vector already orthogonal to the two in-plane vectors
onto their (nonzero) normal direction returns the vector itself. -/
theorem proj_normal_eq_self_of_orthogonal (a b c : V3)
    (ha : dotV c a = 0) (hb : dotV c b = 0)
    (hn : dotV (crossV a b) (crossV a b) ≠ 0) :
    smulV (dotV c (crossV a b) / dotV (crossV a b) (crossV a b)) (crossV a b)
      = c := by
  obtain ⟨a1, a2, a3⟩ := a
  obtain ⟨b1, b2, b3⟩ := b
  obtain ⟨c1, c2, c3⟩ := c
  simp only [dotV, crossV, smulV] at *
  rw [Prod.mk.injEq, Prod.mk.injEq]
  refine ⟨?_, ?_, ?_⟩
  · rw [div_mul_eq_mul_div, div_eq_iff hn]
    linear_combination ((a3 * b1 - a1 * b3) * b3 - (a1 * b2 - a2 * b1) * b2) * ha
      - ((a3 * b1 - a1 * b3) * a3 - (a1 * b2 - a2 * b1) * a2) * hb
  · rw [div_mul_eq_mul_div, div_eq_iff hn]
    linear_combination ((a1 * b2 - a2 * b1) * b1 - (a2 * b3 - a3 * b2) * b3) * ha
      - ((a1 * b2 - a2 * b1) * a1 - (a2 * b3 - a3 * b2) * a3) * hb
  · rw [div_mul_eq_mul_div, div_eq_iff hn]
    linear_combination ((a2 * b3 - a3 * b2) * b2 - (a3 * b1 - a1 * b3) * b1) * ha
      - ((a2 * b3 - a3 * b2) * a2 - (a3 * b1 - a1 * b3) * a1) * hb

/-- Re-orthogonalizing a slab whose out-of-plane vector is already
orthogonal to both in-plane vectors (with a nondegenerate in-plane cell)
leaves the slab unchanged. -/
theorem get_orthogonal_c_slab_eq_self_of_orthogonal (s : Slab)
    (ha : dotV s.lattice.vecC s.lattice.vecA = 0)
    (hb : dotV s.lattice.vecC s.lattice.vecB = 0)
    (hn : dotV (crossV s.lattice.vecA s.lattice.vecB)
      (crossV s.lattice.vecA s.lattice.vecB) ≠ 0) :
    get_orthogonal_c_slab s = s := by
  simp only [get_orthogonal_c_slab]
  rw [proj_normal_eq_self_of_orthogonal _ _ _ ha hb hn]

/-- C3 counterexample: the replication counts are NOT computed from each
slab's own lattice lengths.  With two candidate slabs of in-plane lengths
a = 5 and a = 10 and requested width 21, depth 7.5, the second written
slab is scaled by (4, 2, 1) — the counts obtained from the FIRST slab —
although round(21 / 10) = 2 for its own length, and the two scalings give
different structures. -/
theorem c3_counterexample_first_slab_lengths_used :
    surface_generator (simpleSlab 5 4)
        (fun _ => [simpleSlab 5 4, simpleSlab 10 4]) 10 21 (15 / 2) (0, 0, 1) 2
      = .ok [(mkFilename (0, 0, 1) 0, make_supercell (4, 2, 1) (simpleSlab 5 4)),
             (mkFilename (0, 0, 1) 1, make_supercell (4, 2, 1) (simpleSlab 10 4))] ∧
    pyRound (21 / (simpleSlab 10 4).lattice.a) = 2 ∧
    make_supercell (4, 2, 1) (simpleSlab 10 4)
      ≠ make_supercell (2, 2, 1) (simpleSlab 10 4) := by
  have hm : translate_miller (0, 0, 1) = some (0, 0, 1) := by decide
  have h4 : pyRound ((21 : ℚ) / 5) = 4 := by norm_num [pyRound]
  have h2 : pyRound ((15 / 2 : ℚ) / 4) = 2 := by norm_num [pyRound]
  refine ⟨?_, ?_, ?_⟩
  · simp [surface_generator, hm, simpleSlab, h4, h2, List.range_succ]
  · show pyRound ((21 : ℚ) / 10) = 2
    norm_num [pyRound]
  · intro hcontra
    have := congrArg (fun s => s.lattice.a) hcontra
    simp [make_supercell, simpleSlab] at this

/-- C3 (amended): the replication counts are computed once, from the
FIRST candidate slab's in-plane lattice lengths — round(width /
slabs[0].lattice.a) and round(depth / slabs[0].lattice.b), out-of-plane
count 1 — and applied to every slab; for first-slab lengths a = 5.0,
b = 4.0 and requested width = 21.0, depth = 7.5 the multipliers are
4 and 2. -/
theorem c3_multipliers_from_first_slab (fe : Slab)
    (eng : SlabGenArgs → List Slab) (t w d p : ℚ) (m mil : ℤ × ℤ × ℤ)
    (s0 : Slab) (rest : List Slab) (hm : translate_miller m = some mil)
    (he : eng (slabgen_args fe mil t p) = s0 :: rest) :
    surface_generator fe eng t w d m p =
      .ok (((s0 :: rest).zip (List.range (s0 :: rest).length)).map fun si =>
        (mkFilename m si.2,
          make_supercell
            (pyRound (w / s0.lattice.a), pyRound (d / s0.lattice.b), 1) si.1)) ∧
    pyRound ((21 : ℚ) / 5) = 4 ∧ pyRound ((15 / 2 : ℚ) / 4) = 2 := by
  refine ⟨?_, by norm_num [pyRound], by norm_num [pyRound]⟩
  simp [surface_generator, hm, he]

/-- Witness for the amended C3 on a one-slab engine with first-slab
lengths 5 and 4. -/
theorem c3_multipliers_from_first_slab_witness :
    surface_generator (simpleSlab 5 4) (fun _ => [simpleSlab 5 4])
        10 21 (15 / 2) (0, 0, 1) 2 =
      .ok ((([simpleSlab 5 4]).zip (List.range ([simpleSlab 5 4]).length)).map
        fun si =>
          (mkFilename (0, 0, 1) si.2,
            make_supercell
              (pyRound (21 / (simpleSlab 5 4).lattice.a),
               pyRound ((15 / 2) / (simpleSlab 5 4).lattice.b), 1) si.1)) ∧
    pyRound ((21 : ℚ) / 5) = 4 ∧ pyRound ((15 / 2 : ℚ) / 4) = 2 :=
  c3_multipliers_from_first_slab (simpleSlab 5 4) (fun _ => [simpleSlab 5 4])
    10 21 (15 / 2) 2 (0, 0, 1) (0, 0, 1) (simpleSlab 5 4) [] (by decide) rfl

/-- C4 is violated by the code: with first-slab length a = 5 and a
positive requested width 2 smaller than half of it, the computed
width multiplier is round(2 / 5) = 0, and the slab written has been
scaled by (0, 3, 1) — its lattice length collapses to 0.  The claim
says the multipliers are never zero or negative. -/
theorem c4_small_width_zero_multiplier :
    surface_generator (simpleSlab 5 4) (fun _ => [simpleSlab 5 4])
        10 2 12 (0, 0, 1) 1
      = .ok [(mkFilename (0, 0, 1) 0, make_supercell (0, 3, 1) (simpleSlab 5 4))] ∧
    pyRound ((2 : ℚ) / 5) = 0 ∧
    (make_supercell (0, 3, 1) (simpleSlab 5 4)).lattice.a = 0 := by
  have hm : translate_miller (0, 0, 1) = some (0, 0, 1) := by decide
  have h0 : pyRound ((2 : ℚ) / 5) = 0 := by norm_num [pyRound]
  have h3 : pyRound ((12 : ℚ) / 4) = 3 := by norm_num [pyRound]
  refine ⟨?_, h0, ?_⟩
  · simp [surface_generator, hm, simpleSlab, h0, h3, List.range_succ]
  · simp [make_supercell, simpleSlab]

/-- C5 is violated by the code: the structure written is only the scaled
slab; the `get_orthogonal_c_slab` result is discarded.  On a slab with
out-of-plane vector (1, 0, 1) the written structure keeps vecC = (1, 0, 1),
while re-orthogonalization would give (0, 0, 1): the written structure is
not the re-orthogonalized one (it is not even a fixed point of
re-orthogonalization, which the claim would force). -/
theorem c5_orthogonalization_result_discarded :
    surface_generator tiltSlab (fun _ => [tiltSlab]) 1 1 1 (0, 0, 1) 1
      = .ok [(mkFilename (0, 0, 1) 0, make_supercell (1, 1, 1) tiltSlab)] ∧
    (make_supercell (1, 1, 1) tiltSlab).lattice.vecC = (1, 0, 1) ∧
    (get_orthogonal_c_slab (make_supercell (1, 1, 1) tiltSlab)).lattice.vecC
      = (0, 0, 1) ∧
    get_orthogonal_c_slab (make_supercell (1, 1, 1) tiltSlab)
      ≠ make_supercell (1, 1, 1) tiltSlab := by
  have hm : translate_miller (0, 0, 1) = some (0, 0, 1) := by decide
  have h1 : pyRound (1 : ℚ) = 1 := by norm_num [pyRound]
  refine ⟨?_, ?_, ?_, ?_⟩
  · simp [surface_generator, hm, tiltSlab, h1, List.range_succ]
  · simp [make_supercell, tiltSlab, smulV]
  · simp [get_orthogonal_c_slab, make_supercell, tiltSlab, smulV, crossV, dotV]
  · intro hcontra
    have := congrArg (fun s => s.lattice.vecC.1) hcontra
    simp [get_orthogonal_c_slab, make_supercell, tiltSlab, smulV, crossV,
      dotV] at this

/-- C6 counterexample: on an empty engine result the invocation dies with
the generic index-out-of-range error from `slabs[0]`, not with the named
"no valid slab for requested configuration" failure the claim quotes. -/
theorem c6_counterexample_generic_index_error :
    surface_generator (simpleSlab 5 4) (fun _ => []) 10 20 20 (0, 0, 1) 2
      = .error .indexError ∧
    surface_generator (simpleSlab 5 4) (fun _ => []) 10 20 20 (0, 0, 1) 2
      ≠ .error .noValidSlab := by
  have hm : translate_miller (0, 0, 1) = some (0, 0, 1) := by decide
  have h : surface_generator (simpleSlab 5 4) (fun _ => []) 10 20 20 (0, 0, 1) 2
      = .error .indexError := by
    simp [surface_generator, hm]
  refine ⟨h, ?_⟩
  rw [h]
  intro hcontra
  exact absurd (Except.error.inj hcontra) (by decide)

/-- C6 (amended): when the engine returns an empty sequence of candidate
slabs the invocation does fail rather than silently completing with zero
output files — but the failure is the generic index error raised by
`slabs[0]`, not a named "no valid slab" failure. -/
theorem c6_empty_slabs_index_error (fe : Slab) (eng : SlabGenArgs → List Slab)
    (t w d p : ℚ) (m mil : ℤ × ℤ × ℤ) (hm : translate_miller m = some mil)
    (he : eng (slabgen_args fe mil t p) = []) :
    surface_generator fe eng t w d m p = .error .indexError := by
  simp [surface_generator, hm, he]

/-- Witness for the amended C6 on a concrete empty engine. -/
theorem c6_empty_slabs_index_error_witness :
    surface_generator (simpleSlab 5 4) (fun _ => []) 10 20 20 (0, 0, 1) 2
      = .error .indexError :=
  c6_empty_slabs_index_error (simpleSlab 5 4) (fun _ => []) 10 20 20 2
    (0, 0, 1) (0, 0, 1) (by decide) rfl

/-- C7: on a non-empty engine result of n candidate slabs the run
succeeds and produces exactly one output per slab, in the engine's
order: the i-th output (0 ≤ i < n) is named by the pattern embedding the
original untranslated rhombohedral Miller index and the zero-based index
i, and holds the scaled i-th slab. -/
theorem c7_one_file_per_slab_in_order (fe : Slab)
    (eng : SlabGenArgs → List Slab) (t w d p : ℚ) (m mil : ℤ × ℤ × ℤ)
    (s0 : Slab) (rest : List Slab) (hm : translate_miller m = some mil)
    (he : eng (slabgen_args fe mil t p) = s0 :: rest) :
    ∃ out, surface_generator fe eng t w d m p = .ok out ∧
      out.length = (s0 :: rest).length ∧
      ∀ i (hi : i < (s0 :: rest).length),
        out[i]? = some (mkFilename m i,
          make_supercell
            (pyRound (w / s0.lattice.a), pyRound (d / s0.lattice.b), 1)
            ((s0 :: rest).get ⟨i, hi⟩)) := by
  refine ⟨((s0 :: rest).zip (List.range (s0 :: rest).length)).map
      (fun si => (mkFilename m si.2,
        make_supercell
          (pyRound (w / s0.lattice.a), pyRound (d / s0.lattice.b), 1) si.1)),
      ?_, ?_, ?_⟩
  · simp [surface_generator, hm, he]
  · simp [List.length_zip]
  · intro i hi
    exact zip_range_map_getElem (s0 :: rest) _ i hi

/-- Witness for C7 on a concrete one-slab engine. -/
theorem c7_one_file_per_slab_in_order_witness :
    ∃ out, surface_generator (simpleSlab 5 4) (fun _ => [simpleSlab 5 4])
        10 20 20 (0, 0, 1) 2 = .ok out ∧
      out.length = [simpleSlab 5 4].length ∧
      ∀ i (hi : i < [simpleSlab 5 4].length),
        out[i]? = some (mkFilename (0, 0, 1) i,
          make_supercell
            (pyRound (20 / (simpleSlab 5 4).lattice.a),
             pyRound (20 / (simpleSlab 5 4).lattice.b), 1)
            ([simpleSlab 5 4].get ⟨i, hi⟩)) :=
  c7_one_file_per_slab_in_order (simpleSlab 5 4) (fun _ => [simpleSlab 5 4])
    10 20 20 2 (0, 0, 1) (0, 0, 1) (simpleSlab 5 4) [] (by decide) rfl

/-- C8: the engine is invoked with exactly the loaded unit cell, the
translated Miller index, minimum slab size = requested thickness, minimum
vacuum size = requested padding, slab centering enabled, LLL lattice
reduction enabled and primitive-cell reduction disabled — and with no
other argument list: two engines that agree at that exact argument record
make `surface_generator` indistinguishable. -/
theorem c8_engine_invoked_with_exact_args (fe : Slab)
    (e1 e2 : SlabGenArgs → List Slab) (t w d p : ℚ) (m mil : ℤ × ℤ × ℤ)
    (hm : translate_miller m = some mil)
    (he : e1 (slabgen_args fe mil t p) = e2 (slabgen_args fe mil t p)) :
    slabgen_args fe mil t p = SlabGenArgs.mk fe mil t p true true false ∧
    surface_generator fe e1 t w d m p = surface_generator fe e2 t w d m p := by
  refine ⟨rfl, ?_⟩
  simp [surface_generator, hm, he]

/-- Witness for C8 on two (equal) concrete engines. -/
theorem c8_engine_invoked_with_exact_args_witness :
    slabgen_args (simpleSlab 5 4) (0, 0, 1) 10 2
      = SlabGenArgs.mk (simpleSlab 5 4) (0, 0, 1) 10 2 true true false ∧
    surface_generator (simpleSlab 5 4) (fun _ => [simpleSlab 5 4]) 10 20 20
        (0, 0, 1) 2
      = surface_generator (simpleSlab 5 4) (fun _ => [simpleSlab 5 4]) 10 20 20
        (0, 0, 1) 2 :=
  c8_engine_invoked_with_exact_args (simpleSlab 5 4)
    (fun _ => [simpleSlab 5 4]) (fun _ => [simpleSlab 5 4]) 10 20 20 2
    (0, 0, 1) (0, 0, 1) (by decide) rfl
